import Mathlib

/-!
Shallow embedding of `src/app.py` (Monitoring Pengadaan): the status/date
normalization helpers, the file-list parsing, the per-stage form/patch
construction, the update-request fallback logic, and the submit guard.
Dynamic Python values are modelled by `PyVal`; fallible parsing returns
`Option`; machine interaction (HTTP) is modelled by an explicit responder
function.
-/

namespace Pengadaan

/-- Dynamic Python value as it appears in the dataframe cells and JSON
payloads of `app.py`: `None`, booleans, integers (standing in for Python
numbers; the app never stores fractional numbers), strings, lists, and
string-keyed dicts (kept as association lists in insertion order). -/
inductive PyVal where
  | none : PyVal
  | bool : Bool → PyVal
  | int : Int → PyVal
  | str : String → PyVal
  | list : List PyVal → PyVal
  | dict : List (String × PyVal) → PyVal
deriving Repr

/-- Python truthiness (`bool(x)`): `None`, `False`, `0`, `""`, `[]` and
an empty dict are falsy, everything else is truthy. -/
def pyTruthy : PyVal → Bool
  | .none => false
  | .bool b => b
  | .int n => n != 0
  | .str s => s != ""
  | .list xs => !xs.isEmpty
  | .dict kvs => !kvs.isEmpty

/-- Python `a or b`: returns `a` when `a` is truthy, else `b`. -/
def pyOr (a b : PyVal) : PyVal := if pyTruthy a then a else b

/-- Single-quote character, used by Python `repr` of strings. -/
def sq : Char := Char.ofNat 39

mutual

/-- Python `repr(x)` for the values above (strings are shown between
single quotes; escape sequences inside strings are not reproduced, which
no theorem below depends on). -/
def pyRepr : PyVal → String
  | .none => "None"
  | .bool true => "True"
  | .bool false => "False"
  | .int n => toString n
  | .str s => String.singleton sq ++ s ++ String.singleton sq
  | .list xs => "[" ++ String.intercalate ", " (pyReprList xs) ++ "]"
  | .dict kvs => "\x7b" ++ String.intercalate ", " (pyReprKVs kvs) ++ "\x7d"

/-- Helper for `pyRepr` on list elements. -/
def pyReprList : List PyVal → List String
  | [] => []
  | x :: xs => pyRepr x :: pyReprList xs

/-- Helper for `pyRepr` on dict items. -/
def pyReprKVs : List (String × PyVal) → List String
  | [] => []
  | (k, v) :: xs =>
      (String.singleton sq ++ k ++ String.singleton sq ++ ": " ++ pyRepr v) :: pyReprKVs xs

end

/-- Python `str(x)`: identity on strings, `"None"`/`"True"`/`"False"` for
the singletons, decimal rendering for numbers, `repr` for containers. -/
def pyStr : PyVal → String
  | .none => "None"
  | .bool true => "True"
  | .bool false => "False"
  | .int n => toString n
  | .str s => s
  | .list xs => pyRepr (.list xs)
  | .dict kvs => pyRepr (.dict kvs)

/-- Whitespace as recognized by Python `str.strip()`. -/
def isPySpace : Char → Bool
  | ' ' | '\t' | '\n' | '\r' => true
  | c => c.toNat == 11 || c.toNat == 12

/-- Python `s.strip()`: drop whitespace from both ends. -/
def pyTrim (s : String) : String :=
  ⟨((s.data.dropWhile isPySpace).reverse.dropWhile isPySpace).reverse⟩

/-- ASCII lower-casing of one character. -/
def lowerChar (c : Char) : Char :=
  if 65 ≤ c.toNat ∧ c.toNat ≤ 90 then Char.ofNat (c.toNat + 32) else c

/-- Python `s.lower()` (ASCII; the tokens compared in `app.py` are ASCII). -/
def pyLower (s : String) : String := ⟨s.data.map lowerChar⟩

/-- Python `c in s` for a single character `c`. -/
def strContains (s : String) (c : Char) : Bool := s.data.any (fun a => a == c)

/-- Python `s.split("T")[0]`: the characters before the first `T`. -/
def splitTHead (s : String) : String := ⟨s.data.takeWhile (fun c => c != 'T')⟩

/-- Python `s[:n]` for a string: the first `n` characters. -/
def strTake (s : String) (n : Nat) : String := ⟨s.data.take n⟩

/-- Python `s.startswith(c)` for a single character `c`. -/
def strStartsWith (s : String) (c : Char) : Bool :=
  match s.data with
  | [] => false
  | a :: _ => a == c

/-- Calendar date, modelling `datetime.date` (year, month, day). -/
structure PyDate where
  year : Nat
  month : Nat
  day : Nat
deriving DecidableEq, Repr

/-- Gregorian leap-year test, as used by `datetime.date` validation. -/
def isLeap (y : Nat) : Bool := (y % 4 == 0 && y % 100 != 0) || y % 400 == 0

/-- Number of days in month `m` of year `y` (`datetime.date` validation). -/
def daysInMonth (y m : Nat) : Nat :=
  match m with
  | 1 => 31
  | 2 => if isLeap y then 29 else 28
  | 3 => 31
  | 4 => 30
  | 5 => 31
  | 6 => 30
  | 7 => 31
  | 8 => 31
  | 9 => 30
  | 10 => 31
  | 11 => 30
  | 12 => 31
  | _ => 0

/-- Numeric value of a decimal digit character. -/
def digitVal (c : Char) : Nat := c.toNat - 48

/-- Models `datetime.date.fromisoformat` on its strict `YYYY-MM-DD` form
(the only form the 10-character slices in `app.py` can take): exactly ten
characters, dashes at positions 4 and 7, digits elsewhere, and a valid
calendar date; anything else fails (the `except` branch in the caller). -/
def fromisoformat (s : String) : Option PyDate :=
  match s.toList with
  | [y1, y2, y3, y4, c1, m1, m2, c2, d1, d2] =>
    if y1.isDigit && y2.isDigit && y3.isDigit && y4.isDigit && c1 == '-'
        && m1.isDigit && m2.isDigit && c2 == '-' && d1.isDigit && d2.isDigit then
      let y := 1000 * digitVal y1 + 100 * digitVal y2 + 10 * digitVal y3 + digitVal y4
      let m := 10 * digitVal m1 + digitVal m2
      let d := 10 * digitVal d1 + digitVal d2
      if 1 ≤ y ∧ 1 ≤ m ∧ m ≤ 12 ∧ 1 ≤ d ∧ d ≤ daysInMonth y m then
        some ⟨y, m, d⟩
      else
        Option.none
    else
      Option.none
  | _ => Option.none

/-- Left-pad the decimal rendering of `n` with zeros to width `w`. -/
def padNum (w n : Nat) : String :=
  let s := toString n
  String.mk (List.replicate (w - s.length) '0') ++ s

/-- Models `datetime.date.isoformat`: `YYYY-MM-DD`. -/
def PyDate.isoformat (d : PyDate) : String :=
  padNum 4 d.year ++ "-" ++ padNum 2 d.month ++ "-" ++ padNum 2 d.day

/-- Embedding of `parse_date_safe` (src/app.py lines 76-99): `None`,
booleans and numbers give `None`; otherwise the value is stringified and
stripped; empty or `"none"` (case-insensitive) gives `None`; a string
containing `T` is cut at the first `T`; the first 10 characters are then
parsed as an ISO date, any failure giving `None`. -/
def parse_date_safe (x : PyVal) : Option PyDate :=
  match x with
  | .none => Option.none
  | .bool _ => Option.none
  | .int _ => Option.none
  | _ =>
    let s := pyTrim (pyStr x)
    if s = "" ∨ pyLower s = "none" then
      Option.none
    else
      let s2 := if strContains s 'T' then splitTHead s else s
      fromisoformat (strTake s2 10)

/-- Embedding of `iso_or_empty` (src/app.py lines 102-103): a date object
is always truthy, so `d.isoformat() if d else ""` is a match on presence. -/
def iso_or_empty (d : Option PyDate) : String :=
  match d with
  | some d => d.isoformat
  | Option.none => ""

/-- The fixed status vocabulary `STATUS_OPTIONS` (src/app.py line 26). -/
def STATUS_OPTIONS : List String := ["None", "In Process", "Done"]

/-- Embedding of the per-column status default lambda (src/app.py line
294): `x if str(x).strip() in STATUS_OPTIONS else ("None" if
str(x).strip() == "" else x)`. -/
def statusDefaultCell (x : PyVal) : PyVal :=
  if pyTrim (pyStr x) ∈ STATUS_OPTIONS then x
  else if pyTrim (pyStr x) = "" then .str "None"
  else x

/-- Embedding of the status selectbox gating (src/app.py lines 371-377 and
analogues): the initial index is `STATUS_OPTIONS.index(v or "None")` when
`(v or "None")` is in `STATUS_OPTIONS`, else `0`; the selected entry is
`STATUS_OPTIONS` at that index. -/
def selectboxStatus (v : PyVal) : String :=
  match pyOr v (.str "None") with
  | .str s => if s ∈ STATUS_OPTIONS then s else "None"
  | _ => "None"

/-- The status value a raw cell displays as after the dataframe default
lambda and then the selectbox gating. -/
def statusPipeline (x : PyVal) : String :=
  selectboxStatus (statusDefaultCell x)

/-- Opening curly brace character. -/
def lbrace : Char := Char.ofNat 123

/-- Closing curly brace character. -/
def rbrace : Char := Char.ofNat 125

/-- One JSON escape character after a backslash (the `\uXXXX` form is
handled separately by the string scanner). -/
def escChar : Char → Option Char
  | '"' => some '"'
  | '\\' => some '\\'
  | '/' => some '/'
  | 'b' => some (Char.ofNat 8)
  | 'f' => some (Char.ofNat 12)
  | 'n' => some '\n'
  | 'r' => some '\r'
  | 't' => some '\t'
  | _ => Option.none

/-- Value of one hexadecimal digit. -/
def hexVal (c : Char) : Option Nat :=
  if c.isDigit then some (c.toNat - 48)
  else if 'a' ≤ c ∧ c ≤ 'f' then some (c.toNat - 87)
  else if 'A' ≤ c ∧ c ≤ 'F' then some (c.toNat - 55)
  else Option.none

/-- Scan a JSON string body after the opening quote: the decoded
characters and the remaining input after the closing quote. Raw control
characters are rejected, as `json.loads` rejects them. -/
def jsonStrChars : List Char → Option (List Char × List Char)
  | [] => Option.none
  | '"' :: rest => some ([], rest)
  | '\\' :: 'u' :: h1 :: h2 :: h3 :: h4 :: rest => do
      let a ← hexVal h1
      let b ← hexVal h2
      let c ← hexVal h3
      let d ← hexVal h4
      let (cs, r) ← jsonStrChars rest
      some (Char.ofNat (4096 * a + 256 * b + 16 * c + d) :: cs, r)
  | '\\' :: c :: rest => do
      let e ← escChar c
      let (cs, r) ← jsonStrChars rest
      some (e :: cs, r)
  | c :: rest =>
      if c.toNat < 32 then Option.none
      else do
        let (cs, r) ← jsonStrChars rest
        some (c :: cs, r)

/-- Accumulate the value of a run of decimal digits. -/
def digitsToNat : List Char → Nat → Nat
  | [], acc => acc
  | c :: cs, acc => digitsToNat cs (10 * acc + (c.toNat - 48))

/-- Parse a JSON integer (optional minus, digit run). -/
def jsonNum (cs : List Char) : Option (Int × List Char) :=
  let p : Bool × List Char :=
    match cs with
    | '-' :: rest => (true, rest)
    | _ => (false, cs)
  let ds := p.2.takeWhile Char.isDigit
  let rest := p.2.dropWhile Char.isDigit
  if ds.isEmpty then Option.none
  else
    let n : Int := Int.ofNat (digitsToNat ds 0)
    some (if p.1 then -n else n, rest)

/-- Whether a character is JSON whitespace. -/
def jsonWsChar : Char → Bool
  | ' ' | '\t' | '\n' | '\r' => true
  | _ => false

/-- Skip JSON whitespace. -/
def skipWs (cs : List Char) : List Char := cs.dropWhile jsonWsChar

mutual

/-- Parse one JSON value, fuel-bounded (each nesting level consumes
fuel; `loads` supplies ample fuel). -/
def jsonVal : Nat → List Char → Option (PyVal × List Char)
  | 0, _ => Option.none
  | fuel + 1, cs =>
    match skipWs cs with
    | 'n' :: 'u' :: 'l' :: 'l' :: rest => some (.none, rest)
    | 't' :: 'r' :: 'u' :: 'e' :: rest => some (.bool true, rest)
    | 'f' :: 'a' :: 'l' :: 's' :: 'e' :: rest => some (.bool false, rest)
    | '"' :: rest => do
        let (cs2, r) ← jsonStrChars rest
        some (.str (String.mk cs2), r)
    | '[' :: rest =>
        (match skipWs rest with
         | ']' :: r => some (.list [], r)
         | _ => do
             let (xs, r) ← jsonElems fuel rest
             some (.list xs, r))
    | c :: rest =>
        if c == lbrace then
          match skipWs rest with
          | d :: r =>
              if d == rbrace then some (.dict [], r)
              else do
                let (kvs, r2) ← jsonItems fuel rest
                some (.dict kvs, r2)
          | [] => Option.none
        else
          (jsonNum (c :: rest)).map (fun p => (.int p.1, p.2))
    | [] => Option.none

/-- Parse the comma-separated elements of a JSON array up to `]`. -/
def jsonElems : Nat → List Char → Option (List PyVal × List Char)
  | 0, _ => Option.none
  | fuel + 1, cs => do
      let (v, r) ← jsonVal fuel cs
      match skipWs r with
      | ',' :: r2 => do
          let (vs, r3) ← jsonElems fuel r2
          some (v :: vs, r3)
      | ']' :: r2 => some ([v], r2)
      | _ => Option.none

/-- Parse the comma-separated `"key": value` items of a JSON object up
to the closing brace. -/
def jsonItems : Nat → List Char → Option (List (String × PyVal) × List Char)
  | 0, _ => Option.none
  | fuel + 1, cs =>
      match skipWs cs with
      | '"' :: rest => do
          let (kcs, r) ← jsonStrChars rest
          match skipWs r with
          | ':' :: r2 => do
              let (v, r3) ← jsonVal fuel r2
              (match skipWs r3 with
               | ',' :: r4 => do
                   let (kvs, r5) ← jsonItems fuel r4
                   some ((String.mk kcs, v) :: kvs, r5)
               | e :: r4 =>
                   if e == rbrace then some ([(String.mk kcs, v)], r4)
                   else Option.none
               | [] => Option.none)
          | _ => Option.none
      | _ => Option.none

end

/-- Models `json.loads` on the JSON fragment this application stores
(null, booleans, integers, strings, arrays, objects; numbers with a
fraction or exponent part are outside the modelled fragment): parse one
value and require that only whitespace remains, else fail. -/
def loads (s : String) : Option PyVal :=
  match jsonVal (2 * s.data.length + 2) s.data with
  | some (v, rest) => if skipWs rest = [] then some v else Option.none
  | Option.none => Option.none

/-- Embedding of `parse_files_any` (src/app.py lines 110-136): try each
candidate cell in order; skip falsy cells; a list is returned as-is; a
string that (after strip) starts with `[` or a brace is JSON-decoded, a
decoded list returned directly, a decoded dict wrapped in a singleton
list; on decode failure (or any other shape) fall through to the next
candidate; exhaustion gives `[]`. -/
def parse_files_any : List PyVal → List PyVal
  | [] => []
  | v :: rest =>
    if !pyTruthy v then parse_files_any rest
    else
      match v with
      | .list xs => xs
      | .str s0 =>
        let s := pyTrim s0
        if strStartsWith s '[' || strStartsWith s lbrace then
          match loads s with
          | some (.list xs) => xs
          | some (.dict kvs) => [.dict kvs]
          | _ => parse_files_any rest
        else parse_files_any rest
      | _ => parse_files_any rest

/-- Python `f.get(k)` on a dict: the stored value, else `None`. -/
def dictGet (f : List (String × PyVal)) (k : String) : PyVal :=
  match f.find? (fun p => p.1 == k) with
  | some p => p.2
  | Option.none => .none

/-- Python `f.get(k, d)` on a dict: the stored value, else the default. -/
def dictGetD (f : List (String × PyVal)) (k : String) (d : PyVal) : PyVal :=
  match f.find? (fun p => p.1 == k) with
  | some p => p.2
  | Option.none => d

/-- The Google Drive download link synthesized for a bare file id. -/
def driveUrl (fid : String) : String :=
  "https://drive.google.com/uc?export=download&id=" ++ fid

/-- Embedding of the attachment link rendering (src/app.py lines 356-366):
the display name and the resolved link, if any. `url = f.get("downloadUrl")
or f.get("viewUrl")`; when truthy that link is shown; else `fid =
f.get("fileId") or f.get("id")`; when truthy a Drive download link is
synthesized; else the bare name is shown with no link. -/
def renderLink (f : List (String × PyVal)) : String × Option String :=
  let name := pyStr (dictGetD f "name" (.str "file"))
  let url := pyOr (dictGet f "downloadUrl") (dictGet f "viewUrl")
  if pyTruthy url then (name, some (pyStr url))
  else
    let fid := pyOr (dictGet f "fileId") (dictGet f "id")
    if pyTruthy fid then (name, some (driveUrl (pyStr fid)))
    else (name, Option.none)

/-- Embedding of one stage's date widget gating (e.g. the PO block,
src/app.py lines 460-469): when the chosen status is `"None"` the date
variable is `None` and no widget is shown; otherwise a date input is
shown, initialized to the parsed raw date or today, and yields the date
the user leaves in it (`userPick`, defaulting to the initial value). A
date input always holds a date. -/
def stageDateWidget (status : String) (rawDate : PyVal) (userPick : Option PyDate)
    (today : PyDate) : Option PyDate :=
  if status = "None" then Option.none
  else some (userPick.getD ((parse_date_safe rawDate).getD today))

/-- One stage's `(status, date)` pair as written into the patch under
"Simpan Update" (src/app.py lines 512-541): the date entry is
`iso_or_empty(tgl) if status != "None" else ""`. -/
def stagePatchEntry (status : String) (rawDate : PyVal) (userPick : Option PyDate)
    (today : PyDate) : String × String :=
  let tgl := stageDateWidget status rawDate userPick today
  (status, if status ≠ "None" then iso_or_empty tgl else "")

/-- Embedding of the patch dict built under "Simpan Update" (src/app.py
lines 512-541), as an association list in insertion order: the seven
stage statuses, the seven stage dates (each cleared unless its status
differs from `"None"`), and `LAST_UPDATE` set to the timestamp string
`now` freshly computed by `now_utc_iso()` at patch construction. -/
def buildPatch (evalS usulanS setujuS sp2bjS poS terbayarS supplyS : String)
    (evalT usulanT setujuT sp2bjT poT terbayarT supplyT : Option PyDate)
    (now : String) : List (String × String) :=
  [("EVALUASI_STATUS", evalS),
   ("EVALUASI_TANGGAL", if evalS ≠ "None" then iso_or_empty evalT else ""),
   ("SURAT_USULAN_STATUS", usulanS),
   ("SURAT_USULAN_TANGGAL", if usulanS ≠ "None" then iso_or_empty usulanT else ""),
   ("SURAT_PERSETUJUAN_STATUS", setujuS),
   ("SURAT_PERSETUJUAN_TANGGAL", if setujuS ≠ "None" then iso_or_empty setujuT else ""),
   ("SP2BJ_STATUS", sp2bjS),
   ("SP2BJ_TANGGAL", if sp2bjS ≠ "None" then iso_or_empty sp2bjT else ""),
   ("PO_STATUS", poS),
   ("PO_TANGGAL", if poS ≠ "None" then iso_or_empty poT else ""),
   ("TERBAYAR_STATUS", terbayarS),
   ("TERBAYAR_TANGGAL", if terbayarS ≠ "None" then iso_or_empty terbayarT else ""),
   ("SUPPLY_STATUS", supplyS),
   ("SUPPLY_TANGGAL", if supplyS ≠ "None" then iso_or_empty supplyT else ""),
   ("LAST_UPDATE", now)]

/-- The 15 keys every saved patch carries, in insertion order. -/
def patchKeys : List String :=
  ["EVALUASI_STATUS", "EVALUASI_TANGGAL",
   "SURAT_USULAN_STATUS", "SURAT_USULAN_TANGGAL",
   "SURAT_PERSETUJUAN_STATUS", "SURAT_PERSETUJUAN_TANGGAL",
   "SP2BJ_STATUS", "SP2BJ_TANGGAL",
   "PO_STATUS", "PO_TANGGAL",
   "TERBAYAR_STATUS", "TERBAYAR_TANGGAL",
   "SUPPLY_STATUS", "SUPPLY_TANGGAL",
   "LAST_UPDATE"]

/-- Shape of the payload an `update_request` POST carries: the first
attempt sends the patch under the JSON key `fields`, the fallback resends
the same patch under the JSON key `patch` (src/app.py lines 48-70). -/
inductive PayloadShape where
  | fields
  | patch
deriving DecidableEq, Repr

/-- Response body of the persistence service for an update: the `ok`
flag and the optional `error` string. -/
structure Resp where
  ok : Bool
  error : Option String
deriving DecidableEq, Repr

/-- Embedding of `api_update_request` (src/app.py lines 48-70) against a
responder modelling the backend: POST with the `fields` key; if that
response has a truthy `ok`, return it (one request sent); otherwise POST
once more with the `patch` key and return that second response (two
requests sent). The second component counts the requests sent. -/
def api_update_request (respond : PayloadShape → Resp) : Resp × Nat :=
  let res := respond .fields
  if res.ok then (res, 1)
  else (respond .patch, 2)

/-- What the save handler displays for the final response (src/app.py
lines 543-551): success, or the error text interpolated into the
"Gagal: ..." message (a missing `error` field interpolates as `None`). -/
inductive SaveMsg where
  | success
  | failure (errText : String)
deriving DecidableEq, Repr

/-- The error text the save handler interpolates into its message. -/
def respErrorText (r : Resp) : String := r.error.getD "None"

/-- Embedding of the save-button handler (src/app.py lines 512-551): one
call to `api_update_request`; on `ok` a success message, else the error
is surfaced; the handler itself issues no further request either way. -/
def saveUpdate (respond : PayloadShape → Resp) : SaveMsg × Nat :=
  let p := api_update_request respond
  (if p.1.ok then .success else .failure (respErrorText p.1), p.2)

/-- One uploaded file in the kapal form: name, MIME type (or `None`,
defaulted downstream), and the base64 payload of its content. -/
structure Upload where
  name : String
  mime : Option String
  b64 : String
deriving DecidableEq, Repr

/-- Outcome of pressing "Submit Permintaan" (src/app.py lines 197-230):
a local warning that the title is required, a local warning that at
least one file is required (each stops before any network call), or the
dispatch of exactly one `submit_request` POST carrying the stripped
title and the files. -/
inductive SubmitOutcome where
  | warnTitle
  | warnFiles
  | dispatch (judul : String) (files : List Upload)
deriving DecidableEq, Repr

/-- Embedding of the kapal submit guard (src/app.py lines 197-222):
`if not judul.strip(): warn("Judul Permintaan wajib diisi."); stop`,
then `if not files: warn("Minimal upload 1 file."); stop`, then build
the payload and POST it. -/
def kapalSubmit (judul : String) (files : List Upload) : SubmitOutcome :=
  if pyTrim judul = "" then .warnTitle
  else if files.isEmpty then .warnFiles
  else .dispatch (pyTrim judul) files

/-- Whether a submit outcome dispatches a network call. -/
def SubmitOutcome.isNetworkCall : SubmitOutcome → Bool
  | .dispatch _ _ => true
  | _ => false

/-- A rendered ISO date is never the empty string (it always contains
two dashes). -/
theorem isoformat_ne_empty (d : PyDate) : d.isoformat ≠ "" := by
  intro h
  have h2 := congrArg String.data h
  simp [PyDate.isoformat, String.data_append] at h2

/-- The status selectbox can only ever yield one of the three canonical
options, whatever raw value seeds its index. -/
theorem selectboxStatus_mem (v : PyVal) : selectboxStatus v ∈ STATUS_OPTIONS := by
  unfold selectboxStatus
  cases pyOr v (.str "None") with
  | str s =>
      by_cases h : s ∈ STATUS_OPTIONS
      · simp [h]
      · simp [h]; decide
  | none => decide
  | bool b => simp; decide
  | int n => simp; decide
  | list xs => simp; decide
  | dict kvs => simp; decide

/-- Claim C1 fails as stated on the code: a stage whose selected status
is "In Process" with raw date "2025-01-01" is written back with that
non-empty date, so status different from Done does not force an empty
date in the patch. -/
theorem C1_cex :
    stagePatchEntry "In Process" (.str "2025-01-01") Option.none ⟨2025, 6, 1⟩
      = ("In Process", "2025-01-01")
    ∧ ("In Process" : String) ≠ "Done"
    ∧ ("2025-01-01" : String) ≠ "" := ⟨rfl, by decide, by decide⟩

/-- Claim C1 amended: the invariant the patch construction actually
enforces is that the written date is empty exactly when the selected
status is "None"; for any other status (including "In Process") the
written date is the non-empty ISO form of the widget date. -/
theorem C1_patch_invariant (status : String) (rawDate : PyVal)
    (userPick : Option PyDate) (today : PyDate) :
    (stagePatchEntry status rawDate userPick today).2 = "" ↔ status = "None" := by
  unfold stagePatchEntry stageDateWidget
  by_cases h : status = "None"
  · simp [h]
  · simp only [h, if_neg h, ne_eq, not_false_iff, if_true, iff_false]
    simpa [iso_or_empty] using
      isoformat_ne_empty (userPick.getD ((parse_date_safe rawDate).getD today))

/-- Claim C2 fails as stated on the code: the status default lambda
leaves the unrecognized tokens "none", "NaN", the boolean False and the
number 0 unchanged instead of normalizing them to "None". -/
theorem C2_cex :
    statusDefaultCell (.str "none") = .str "none"
    ∧ pyStr (statusDefaultCell (.str "none")) ≠ "None"
    ∧ pyStr (statusDefaultCell (.str "NaN")) ≠ "None"
    ∧ pyStr (statusDefaultCell (.bool false)) ≠ "None"
    ∧ pyStr (statusDefaultCell (.int 0)) ≠ "None" :=
  ⟨rfl, by decide, by decide, by decide, by decide⟩

/-- Claim C2 amended: the status default lambda is total and never
raises, but it only maps the empty (or all-whitespace) cell to "None",
passing canonical options and every other value through unchanged; it is
the subsequent selectbox gating that makes each of the inputs Python
None, "", "none", "NaN", "NaT", False and 0 display as "None", and that
confines every displayed status to the three canonical options. -/
theorem C2_default_lambda :
    statusDefaultCell (.str "") = .str "None"
    ∧ (∀ x : PyVal, pyTrim (pyStr x) ∈ STATUS_OPTIONS → statusDefaultCell x = x)
    ∧ (∀ x : PyVal, pyTrim (pyStr x) ∉ STATUS_OPTIONS → pyTrim (pyStr x) ≠ "" →
        statusDefaultCell x = x)
    ∧ statusPipeline .none = "None"
    ∧ statusPipeline (.str "") = "None"
    ∧ statusPipeline (.str "none") = "None"
    ∧ statusPipeline (.str "NaN") = "None"
    ∧ statusPipeline (.str "NaT") = "None"
    ∧ statusPipeline (.bool false) = "None"
    ∧ statusPipeline (.int 0) = "None"
    ∧ (∀ x : PyVal, statusPipeline x ∈ STATUS_OPTIONS) := by
  refine ⟨rfl, ?_, ?_, rfl, rfl, rfl, rfl, rfl, rfl, rfl,
    fun x => selectboxStatus_mem _⟩
  · intro x h
    simp [statusDefaultCell, h]
  · intro x h h2
    simp [statusDefaultCell, h, h2]

/-- Witness for the amended C2 at concrete inputs. -/
theorem C2_default_lambda_witness :
    statusDefaultCell (.str "Done") = .str "Done"
    ∧ statusDefaultCell (.str "junk") = .str "junk" :=
  ⟨C2_default_lambda.2.1 (.str "Done") (by decide),
   C2_default_lambda.2.2.1 (.str "junk") (by decide) (by decide)⟩

/-- Claim C3 fails as stated on the code: the Done-token "selesai" is
not mapped to "Done"; the default lambda leaves it unchanged and the
edit form then displays it as "None". -/
theorem C3_cex :
    statusDefaultCell (.str "selesai") = .str "selesai"
    ∧ statusPipeline (.str "selesai") = "None"
    ∧ ("None" : String) ≠ "Done" := ⟨rfl, by decide, by decide⟩

/-- Claim C3 amended: of the Done-tokens only the exact-case string
"Done" is recognized (it is passed through and displayed as "Done");
every other casing or alternate token is left unchanged by the default
lambda — which never produces "Done" from anything else, being either
the identity or the constant "None" on strings — and is displayed as
"None" by the selectbox gating. -/
theorem C3_done_tokens :
    statusPipeline (.str "Done") = "Done"
    ∧ statusDefaultCell (.str "Done") = .str "Done"
    ∧ statusPipeline (.str "done") = "None"
    ∧ statusPipeline (.str "Selesai") = "None"
    ∧ statusPipeline (.str "FINISH") = "None"
    ∧ statusPipeline (.str "finish") = "None"
    ∧ statusPipeline (.str "finished") = "None"
    ∧ statusPipeline (.str "completed") = "None"
    ∧ statusPipeline (.str "complete") = "None"
    ∧ statusPipeline (.str "OK") = "None"
    ∧ statusPipeline (.str "ok") = "None"
    ∧ statusPipeline (.str "yes") = "None"
    ∧ statusPipeline (.str "TRUE") = "None"
    ∧ statusPipeline (.str "true") = "None"
    ∧ statusPipeline (.str "1") = "None"
    ∧ (∀ s : String,
        statusDefaultCell (.str s) = .str s ∨ statusDefaultCell (.str s) = .str "None") := by
  refine ⟨rfl, rfl, rfl, rfl, rfl, rfl, rfl, rfl, rfl, rfl, rfl, rfl, rfl, rfl,
    rfl, ?_⟩
  intro s
  by_cases h : pyTrim (pyStr (.str s)) ∈ STATUS_OPTIONS
  · exact Or.inl (by simp [statusDefaultCell, h])
  · by_cases h2 : pyTrim (pyStr (.str s)) = ""
    · refine Or.inr ?_
      unfold statusDefaultCell
      rw [if_neg h, if_pos h2]
    · refine Or.inl ?_
      unfold statusDefaultCell
      rw [if_neg h, if_neg h2]

/-- Claim C4: for every string that (after stripping, once past the
empty and "none" guards) contains a literal T, `parse_date_safe` parses
exactly the first 10 characters of the part before the first T; in
particular the ISO timestamp "2025-12-15T10:00:00.000Z" round-trips
through normalization and serialization to exactly "2025-12-15". -/
theorem C4_iso_truncation :
    (∀ s : String,
       pyTrim s ≠ "" → pyLower (pyTrim s) ≠ "none" →
       strContains (pyTrim s) 'T' = true →
       parse_date_safe (.str s) = fromisoformat (strTake (splitTHead (pyTrim s)) 10))
    ∧ iso_or_empty (parse_date_safe (.str "2025-12-15T10:00:00.000Z")) = "2025-12-15" := by
  refine ⟨?_, rfl⟩
  intro s h1 h2 h3
  unfold parse_date_safe
  simp only [pyStr]
  rw [if_neg (by simp [h1, h2]), if_pos h3]

/-- Witness for C4 at the ISO timestamp of the claim. -/
theorem C4_iso_truncation_witness :
    parse_date_safe (.str "2025-12-15T10:00:00.000Z")
      = fromisoformat (strTake (splitTHead (pyTrim "2025-12-15T10:00:00.000Z")) 10) :=
  C4_iso_truncation.1 "2025-12-15T10:00:00.000Z" (by decide) (by decide) (by decide)

/-- Claim C5: date normalization is total and absorbing — absent,
boolean and numeric inputs, empty and whitespace strings, the none-like
tokens in either case, and every string whose (possibly T-truncated)
10-character silce fails ISO parsing all give absent, and serialization
maps absent to the empty string. -/
theorem C5_date_total :
    parse_date_safe .none = Option.none
    ∧ (∀ b : Bool, parse_date_safe (.bool b) = Option.none)
    ∧ (∀ n : Int, parse_date_safe (.int n) = Option.none)
    ∧ (∀ s : String, pyTrim s = "" → parse_date_safe (.str s) = Option.none)
    ∧ (∀ s : String, pyLower (pyTrim s) = "none" → parse_date_safe (.str s) = Option.none)
    ∧ parse_date_safe (.str "NaN") = Option.none
    ∧ parse_date_safe (.str "nan") = Option.none
    ∧ parse_date_safe (.str "NaT") = Option.none
    ∧ parse_date_safe (.str "nat") = Option.none
    ∧ parse_date_safe (.str "False") = Option.none
    ∧ parse_date_safe (.str "false") = Option.none
    ∧ (∀ s : String,
        fromisoformat (strTake
          (if strContains (pyTrim s) 'T' then splitTHead (pyTrim s) else pyTrim s) 10)
          = Option.none →
        parse_date_safe (.str s) = Option.none)
    ∧ iso_or_empty Option.none = ""
    ∧ parse_date_safe (.str "") = Option.none := by
  refine ⟨rfl, fun b => rfl, fun n => rfl, ?_, ?_, rfl, rfl, rfl, rfl, rfl, rfl,
    ?_, rfl, rfl⟩
  · intro s h
    unfold parse_date_safe
    simp only [pyStr]
    rw [if_pos (Or.inl h)]
  · intro s h
    unfold parse_date_safe
    simp only [pyStr]
    rw [if_pos (Or.inr h)]
  · intro s h
    unfold parse_date_safe
    simp only [pyStr]
    by_cases hg : pyTrim s = "" ∨ pyLower (pyTrim s) = "none"
    · rw [if_pos hg]
    · rw [if_neg hg]
      exact h

/-- Witness for C5 at concrete inputs. -/
theorem C5_date_total_witness :
    parse_date_safe (.str "   ") = Option.none
    ∧ parse_date_safe (.str " None ") = Option.none
    ∧ parse_date_safe (.str "not a date") = Option.none :=
  ⟨C5_date_total.2.2.2.1 "   " rfl,
   C5_date_total.2.2.2.2.1 " None " rfl,
   C5_date_total.2.2.2.2.2.2.2.2.2.2.2.1 "not a date" rfl⟩

/-- Claim C6 fails as stated on the code: against a backend that answers
`ok: false`, `api_update_request` sends a second request (the
`patch`-keyed fallback) within the same user action. -/
theorem C6_cex :
    (api_update_request (fun _ => ⟨false, some "boom"⟩)).2 = 2
    ∧ (2 : Nat) ≠ 1 := ⟨rfl, by decide⟩

/-- Claim C6 amended: when the `fields`-keyed request returns a truthy
`ok` exactly one request is sent; when it returns `ok: false` exactly
one more request is sent with the `patch` key and its response is the
result; never more than two requests are sent, and when the fallback
also fails its error string is what the save handler surfaces, with no
further request. -/
theorem C6_update_fallback (respond : PayloadShape → Resp) :
    ((respond .fields).ok = true → api_update_request respond = (respond .fields, 1))
    ∧ ((respond .fields).ok = false → api_update_request respond = (respond .patch, 2))
    ∧ (api_update_request respond).2 ≤ 2
    ∧ ((respond .fields).ok = false →
        saveUpdate respond
          = (if (respond .patch).ok then .success
             else .failure (respErrorText (respond .patch)), 2)) := by
  refine ⟨?_, ?_, ?_, ?_⟩
  · intro h; simp [api_update_request, h]
  · intro h; simp [api_update_request, h]
  · by_cases h : (respond .fields).ok <;> simp [api_update_request, h]
  · intro h; simp [saveUpdate, api_update_request, h]

/-- Witness for the amended C6 at a concrete always-failing backend. -/
theorem C6_update_fallback_witness :
    api_update_request (fun _ => ⟨false, some "x"⟩) = (⟨false, some "x"⟩, 2)
    ∧ saveUpdate (fun _ => ⟨false, some "x"⟩) = (.failure "x", 2) := by
  constructor
  · exact (C6_update_fallback (fun _ => ⟨false, some "x"⟩)).2.1 rfl
  · have h := (C6_update_fallback (fun _ => ⟨false, some "x"⟩)).2.2.2 rfl
    simpa [respErrorText] using h

/-- Claim C7: every FileRef resolves to exactly one display link by the
fixed preference order — a truthy `downloadUrl` wins, else a truthy
`viewUrl`, else a Drive download URL synthesized from a truthy `fileId`
(or `id`), else the bare name with no link — and the FileRef decoded
from the JSON of the claim resolves to exactly the Drive URL for id
XYZ. -/
theorem C7_link_resolution :
    (∀ f, pyTruthy (dictGet f "downloadUrl") = true →
        (renderLink f).2 = some (pyStr (dictGet f "downloadUrl")))
    ∧ (∀ f, pyTruthy (dictGet f "downloadUrl") = false →
        pyTruthy (dictGet f "viewUrl") = true →
        (renderLink f).2 = some (pyStr (dictGet f "viewUrl")))
    ∧ (∀ f, pyTruthy (dictGet f "downloadUrl") = false →
        pyTruthy (dictGet f "viewUrl") = false →
        pyTruthy (dictGet f "fileId") = true →
        (renderLink f).2 = some (driveUrl (pyStr (dictGet f "fileId"))))
    ∧ (∀ f, pyTruthy (dictGet f "downloadUrl") = false →
        pyTruthy (dictGet f "viewUrl") = false →
        pyTruthy (dictGet f "fileId") = false →
        pyTruthy (dictGet f "id") = true →
        (renderLink f).2 = some (driveUrl (pyStr (dictGet f "id"))))
    ∧ (∀ f, pyTruthy (dictGet f "downloadUrl") = false →
        pyTruthy (dictGet f "viewUrl") = false →
        pyTruthy (dictGet f "fileId") = false →
        pyTruthy (dictGet f "id") = false →
        (renderLink f).2 = Option.none)
    ∧ parse_files_any [.str "[\x7b\"name\":\"a.pdf\",\"fileId\":\"XYZ\"\x7d]"]
        = [.dict [("name", .str "a.pdf"), ("fileId", .str "XYZ")]]
    ∧ renderLink [("name", .str "a.pdf"), ("fileId", .str "XYZ")]
        = ("a.pdf", some "https://drive.google.com/uc?export=download&id=XYZ") := by
  refine ⟨?_, ?_, ?_, ?_, ?_, rfl, rfl⟩
  · intro f h; simp [renderLink, pyOr, h]
  · intro f h h2; simp [renderLink, pyOr, h, h2]
  · intro f h h2 h3; simp [renderLink, pyOr, h, h2, h3]
  · intro f h h2 h3 h4; simp [renderLink, pyOr, h, h2, h3, h4]
  · intro f h h2 h3 h4; simp [renderLink, pyOr, h, h2, h3, h4]

/-- Witness for C7 at one concrete FileRef per branch of the preference
order. -/
theorem C7_link_resolution_witness :
    (renderLink [("downloadUrl", .str "d"), ("viewUrl", .str "v")]).2 = some "d"
    ∧ (renderLink [("viewUrl", .str "v")]).2 = some "v"
    ∧ (renderLink [("fileId", .str "XYZ")]).2 = some (driveUrl "XYZ")
    ∧ (renderLink [("id", .str "W")]).2 = some (driveUrl "W")
    ∧ (renderLink [("name", .str "n.pdf")]).2 = Option.none := by
  refine ⟨?_, ?_, ?_, ?_, ?_⟩
  · exact C7_link_resolution.1 _ rfl
  · exact C7_link_resolution.2.1 _ rfl rfl
  · exact C7_link_resolution.2.2.1 _ rfl rfl rfl
  · exact C7_link_resolution.2.2.2.1 _ rfl rfl rfl rfl
  · exact C7_link_resolution.2.2.2.2.1 _ rfl rfl rfl rfl

/-- Claim C8: file-list normalization is total — absent and falsy cells
are skipped, a string cell that (after stripping) starts with a bracket
or brace and decodes to a JSON list is returned directly, one decoding
to a single object is wrapped in a one-element list, a cell whose decode
fails falls through to the next candidate, and a non-JSON string or an
absent sole candidate yields the empty sequence. -/
theorem C8_files_normalization :
    parse_files_any [] = []
    ∧ parse_files_any [.none] = []
    ∧ parse_files_any [.str "not json"] = []
    ∧ (∀ (s : String) (rest : List PyVal) (xs : List PyVal),
        s ≠ "" →
        (strStartsWith (pyTrim s) '[' || strStartsWith (pyTrim s) lbrace) = true →
        loads (pyTrim s) = some (.list xs) →
        parse_files_any (.str s :: rest) = xs)
    ∧ (∀ (s : String) (rest : List PyVal) (kvs : List (String × PyVal)),
        s ≠ "" →
        (strStartsWith (pyTrim s) '[' || strStartsWith (pyTrim s) lbrace) = true →
        loads (pyTrim s) = some (.dict kvs) →
        parse_files_any (.str s :: rest) = [.dict kvs])
    ∧ (∀ (s : String) (rest : List PyVal),
        loads (pyTrim s) = Option.none →
        parse_files_any (.str s :: rest) = parse_files_any rest)
    ∧ (∀ s : String, loads (pyTrim s) = Option.none → parse_files_any [.str s] = [])
    ∧ (∀ (xs : List PyVal) (rest : List PyVal), xs ≠ [] →
        parse_files_any (.list xs :: rest) = xs) := by
  refine ⟨rfl, rfl, rfl, ?_, ?_, ?_, ?_, ?_⟩
  · intro s rest xs hs hstart hload
    simp [parse_files_any, pyTruthy, hs, hstart, hload]
  · intro s rest kvs hs hstart hload
    simp [parse_files_any, pyTruthy, hs, hstart, hload]
  · intro s rest hload
    by_cases hs : s = ""
    · simp [parse_files_any, pyTruthy, hs]
    · by_cases hstart :
        (strStartsWith (pyTrim s) '[' || strStartsWith (pyTrim s) lbrace) = true
      · simp [parse_files_any, pyTruthy, hs, hstart, hload]
      · simp [parse_files_any, pyTruthy, hs, hstart]
  · intro s hload
    by_cases hs : s = ""
    · simp [parse_files_any, pyTruthy, hs]
    · by_cases hstart :
        (strStartsWith (pyTrim s) '[' || strStartsWith (pyTrim s) lbrace) = true
      · simp [parse_files_any, pyTruthy, hs, hstart, hload]
      · simp [parse_files_any, pyTruthy, hs, hstart]
  · intro xs rest hxs
    simp [parse_files_any, pyTruthy, hxs]

/-- Witness for C8 at concrete JSON strings, a failing string with a
fallback column, and a native list cell. -/
theorem C8_files_normalization_witness :
    parse_files_any [.str " [\x7b\"a\": 1\x7d, null] "] = [.dict [("a", .int 1)], .none]
    ∧ parse_files_any [.str "\x7b\"name\": \"b.pdf\"\x7d"] = [.dict [("name", .str "b.pdf")]]
    ∧ parse_files_any [.str "[oops", .str "x"] = parse_files_any [.str "x"]
    ∧ parse_files_any [.str "[broken"] = []
    ∧ parse_files_any [.list [.int 1], .none] = [.int 1] := by
  refine ⟨?_, ?_, ?_, ?_, ?_⟩
  · exact C8_files_normalization.2.2.2.1 _ [] _ (by decide) rfl rfl
  · exact C8_files_normalization.2.2.2.2.1 _ [] _ (by decide) rfl rfl
  · exact C8_files_normalization.2.2.2.2.2.1 _ [.str "x"] rfl
  · exact C8_files_normalization.2.2.2.2.2.2.1 "[broken" rfl
  · exact C8_files_normalization.2.2.2.2.2.2.2 [.int 1] [.none] (by simp)

/-- Claim C9: whatever the user selected, every saved patch carries
exactly the 7 stage status keys, the 7 stage date keys and LAST_UPDATE,
in a fixed order, and LAST_UPDATE holds exactly the freshly computed
timestamp passed in. -/
theorem C9_patch_frame (evalS usulanS setujuS sp2bjS poS terbayarS supplyS : String)
    (evalT usulanT setujuT sp2bjT poT terbayarT supplyT : Option PyDate)
    (now : String) :
    (buildPatch evalS usulanS setujuS sp2bjS poS terbayarS supplyS
        evalT usulanT setujuT sp2bjT poT terbayarT supplyT now).map Prod.fst = patchKeys
    ∧ (buildPatch evalS usulanS setujuS sp2bjS poS terbayarS supplyS
        evalT usulanT setujuT sp2bjT poT terbayarT supplyT now).length = 15
    ∧ List.lookup "LAST_UPDATE"
        (buildPatch evalS usulanS setujuS sp2bjS poS terbayarS supplyS
          evalT usulanT setujuT sp2bjT poT terbayarT supplyT now) = some now :=
  ⟨rfl, rfl, rfl⟩

/-- Claim C10: a submit_request is dispatched exactly when the stripped
title is non-empty and at least one file is attached; an empty title is
rejected with the title warning, a non-empty title with no files with
the file warning, and neither rejection dispatches a network call. -/
theorem C10_submit_guard (judul : String) (files : List Upload) :
    ((kapalSubmit judul files).isNetworkCall = true ↔ (pyTrim judul ≠ "" ∧ files ≠ []))
    ∧ (pyTrim judul = "" → kapalSubmit judul files = .warnTitle)
    ∧ (pyTrim judul ≠ "" → files = [] → kapalSubmit judul files = .warnFiles)
    ∧ (pyTrim judul ≠ "" → files ≠ [] →
        kapalSubmit judul files = .dispatch (pyTrim judul) files) := by
  refine ⟨?_, ?_, ?_, ?_⟩
  · by_cases h : pyTrim judul = ""
    · simp [kapalSubmit, SubmitOutcome.isNetworkCall, h]
    · by_cases h2 : files = []
      · simp [kapalSubmit, SubmitOutcome.isNetworkCall, h, h2]
      · simp [kapalSubmit, SubmitOutcome.isNetworkCall, h, h2,
          List.isEmpty_iff]
  · intro h; simp [kapalSubmit, h]
  · intro h h2; simp [kapalSubmit, h, h2]
  · intro h h2; simp [kapalSubmit, h, h2, List.isEmpty_iff]

/-- Witness for C10 at one concrete form input per branch. -/
theorem C10_submit_guard_witness :
    kapalSubmit "   " [] = .warnTitle
    ∧ kapalSubmit " t " [] = .warnFiles
    ∧ kapalSubmit " t " [⟨"a.pdf", some "application/pdf", "QUJD"⟩]
        = .dispatch "t" [⟨"a.pdf", some "application/pdf", "QUJD"⟩] := by
  refine ⟨?_, ?_, ?_⟩
  · exact (C10_submit_guard "   " []).2.1 (by decide)
  · exact (C10_submit_guard " t " []).2.2.1 (by decide) rfl
  · exact (C10_submit_guard " t " _).2.2.2 (by decide) (by simp)

end Pengadaan
